import Mathlib

/-
Shallow embedding of src/ivi-id-agent-modules/ivi-id-agent/src/ivi-id-agent.c.

The identifier-assignment engine of the ivi id agent is embedded as pure
Lean functions.  The host compositor (weston / ivi-layout) is modelled by a
record of oracle functions (does surface_set_id succeed, which surface
currently holds a given id), the redis registry by an association list of
string keys and values, and machine integers by Nat (uint32_t values never
overflow on the paths modelled: the cursor only increments while strictly
below its max) and Int (for int32_t surface ids in the redis client).
Calls with observable effects (surface_set_id, redis_reg) are recorded in
an event trace.
-/

/-- INVALID_ID sentinel from the C file (0xFFFFFFFF). -/
def INVALID_ID : Nat := 4294967295

/-- struct db_elem: one configured rule, with the optional back pointer to
the layout surface currently bound to it (modelled as an optional surface
handle). -/
structure DbElem where
  surface_id : Nat
  cfg_app_id : Option String
  cfg_title : Option String
  layout_surface : Option Nat
deriving DecidableEq, Repr

/-- struct ivi_id_agent: the fields the assignment engine reads and writes
(default behavior flag, default range cursor and bound, rule list). -/
structure IviIdAgent where
  default_behavior_set : Nat
  default_surface_id : Nat
  default_surface_id_max : Nat
  app_list : List DbElem
deriving DecidableEq, Repr

/-- The host compositor interface consumed by get_id: whether
surface_set_id(surface, id) succeeds (res = 0 in C becomes true here), and
get_surface_from_id (which surface handle currently holds a given id). -/
structure Host where
  set_id_ok : Nat → Nat → Bool
  surface_from_id : Nat → Option Nat

/-- Observable calls made by the engine: a surface_set_id call together
with the result the host returned for it, and a redis_reg attempt. -/
inductive Event where
  | set_id (ls : Nat) (id : Nat) (ok : Bool)
  | reg (app : Option String) (id : Nat)
deriving DecidableEq, Repr

/-- check_config_parameter: a NULL configured value matches anything; a set
configured value requires the surface value to be present and strcmp-equal. -/
def check_config_parameter (cfg_val v : Option String) : Bool :=
  match cfg_val with
  | none => true
  | some c =>
    match v with
    | none => false
    | some s => c == s

/-- Result of get_id_from_config: the (possibly rebound) rule list, the
IVI_SUCCEEDED/IVI_FAILED return (true = IVI_SUCCEEDED), and the emitted
event trace. -/
structure GicResult where
  app_list : List DbElem
  ok : Bool
  events : List Event
deriving DecidableEq, Repr

/-- get_id_from_config: walk the rule list; on a rule whose set parameters
both match, call surface_set_id; if the host rejects the id, continue with
the remaining rules; on acceptance bind the rule, call redis_reg and stop. -/
def get_id_from_config (host : Host) (ls : Nat) (tapp ttitle : Option String) :
    List DbElem → GicResult
  | [] => ⟨[], false, []⟩
  | e :: rest =>
    if check_config_parameter e.cfg_app_id tapp &&
        check_config_parameter e.cfg_title ttitle then
      if host.set_id_ok ls e.surface_id then
        ⟨{ e with layout_surface := some ls } :: rest, true,
          [Event.set_id ls e.surface_id true, Event.reg tapp e.surface_id]⟩
      else
        let r := get_id_from_config host ls tapp ttitle rest
        ⟨e :: r.app_list, r.ok, Event.set_id ls e.surface_id false :: r.events⟩
    else
      let r := get_id_from_config host ls tapp ttitle rest
      ⟨e :: r.app_list, r.ok, r.events⟩

/-- Result of get_id: updated agent state, success flag, event trace. -/
structure GetIdResult where
  ida : IviIdAgent
  ok : Bool
  events : List Event
deriving DecidableEq, Repr

/-- The body of get_id after the identity snapshot has been derived:
try the configured rules, then, if that failed, the default-range path.
In the default path the occupancy pre-check consults get_surface_from_id;
surface_set_id is then called with its return value ignored, redis_reg is
attempted and the cursor advances. -/
def get_id_core (host : Host) (ida : IviIdAgent) (ls : Nat)
    (tapp ttitle : Option String) : GetIdResult :=
  let r := get_id_from_config host ls tapp ttitle ida.app_list
  if r.ok then
    ⟨{ ida with app_list := r.app_list }, true, r.events⟩
  else if ida.default_behavior_set = 0 then
    ⟨{ ida with app_list := r.app_list }, false, r.events⟩
  else if ida.default_surface_id < ida.default_surface_id_max then
    let assign : GetIdResult :=
      ⟨{ ida with
          app_list := r.app_list
          default_surface_id := ida.default_surface_id + 1 }, true,
        r.events ++
          [Event.set_id ls ida.default_surface_id
            (host.set_id_ok ls ida.default_surface_id),
           Event.reg tapp ida.default_surface_id]⟩
    match host.surface_from_id ida.default_surface_id with
    | some s =>
      if s ≠ ls then
        ⟨{ ida with app_list := r.app_list }, false, r.events⟩
      else
        assign
    | none => assign
  else
    ⟨{ ida with app_list := r.app_list }, false, r.events⟩

/-- get_id: derive the identity snapshot (the application id falls back to
the title when the host reports none) and run the assignment body. -/
def get_id (host : Host) (ida : IviIdAgent) (ls : Nat)
    (app_id title : Option String) : GetIdResult :=
  let temp_title := title
  let temp_app_id := match app_id with
    | some a => some a
    | none => temp_title
  get_id_core host ida ls temp_app_id temp_title

/-- A host that accepts every surface_set_id call and reports every id free. -/
def host_accept : Host := ⟨fun _ _ => true, fun _ => none⟩

/-- Agent state for the default-range scenario: default behavior enabled,
cursor 100, max 103, no rules. -/
def ida_c4 : IviIdAgent := ⟨1, 100, 103, []⟩

/-- One default allocation step in the C4 scenario (fresh surface handle 9). -/
def alloc_step (i : IviIdAgent) : IviIdAgent := (get_id host_accept i 9 none none).ida

/-- C4: with default behavior enabled, start 100, max 103, three successive
allocations (host accepting each) assign 100, 101, 102, each advancing the
cursor by one; the fourth fails and leaves the state unchanged, and every
subsequent allocation from that exhausted state fails as well. -/
theorem get_id_default_range_scenario : ∀ n : Nat,
    (get_id host_accept ida_c4 1 none none).ok = true ∧
    (get_id host_accept ida_c4 1 none none).events =
      [Event.set_id 1 100 true, Event.reg none 100] ∧
    (get_id host_accept ida_c4 1 none none).ida = ⟨1, 101, 103, []⟩ ∧
    (get_id host_accept ⟨1, 101, 103, []⟩ 2 none none).ok = true ∧
    (get_id host_accept ⟨1, 101, 103, []⟩ 2 none none).events =
      [Event.set_id 2 101 true, Event.reg none 101] ∧
    (get_id host_accept ⟨1, 101, 103, []⟩ 2 none none).ida = ⟨1, 102, 103, []⟩ ∧
    (get_id host_accept ⟨1, 102, 103, []⟩ 3 none none).ok = true ∧
    (get_id host_accept ⟨1, 102, 103, []⟩ 3 none none).events =
      [Event.set_id 3 102 true, Event.reg none 102] ∧
    (get_id host_accept ⟨1, 102, 103, []⟩ 3 none none).ida = ⟨1, 103, 103, []⟩ ∧
    (get_id host_accept ⟨1, 103, 103, []⟩ 4 none none).ok = false ∧
    (get_id host_accept ⟨1, 103, 103, []⟩ 4 none none).events = [] ∧
    (get_id host_accept ⟨1, 103, 103, []⟩ 4 none none).ida = ⟨1, 103, 103, []⟩ ∧
    (get_id host_accept (alloc_step^[n] ⟨1, 103, 103, []⟩) 9 none none).ok = false := by
  intro n
  have hfix : alloc_step^[n] (⟨1, 103, 103, []⟩ : IviIdAgent) = ⟨1, 103, 103, []⟩ :=
    Function.iterate_fixed (by decide) n
  rw [hfix]
  decide

/-- A host that rejects surface_set_id for id 7 and reports every id free. -/
def host_reject7 : Host := ⟨fun _ id => id != 7, fun _ => none⟩

/-- The configured rule of the C1 scenario: application pattern "nav",
surface id 7. -/
def rule_nav : DbElem := ⟨7, some "nav", none, none⟩

/-- C1 counterexample: with rule {surfaceId 7, applicationPattern "nav"},
default range [100, 103) enabled, and a host that rejects id 7, a surface
reporting "nav" does NOT end in failure: the engine falls through to the
default range and the surface receives id 100 (the claim says the event
must fail and the surface must get no id). -/
theorem c1_host_reject_counterexample :
    (get_id host_reject7 ⟨1, 100, 103, [rule_nav]⟩ 2 (some "nav") none).ok = true ∧
    (get_id host_reject7 ⟨1, 100, 103, [rule_nav]⟩ 2 (some "nav") none).events =
      [Event.set_id 2 7 false, Event.set_id 2 100 true, Event.reg (some "nav") 100] ∧
    (get_id host_reject7 ⟨1, 100, 103, [rule_nav]⟩ 2 (some "nav") none).ida =
      ⟨1, 101, 103, [rule_nav]⟩ := by
  decide

/-- C1 amended: when the host rejects a matching rule's surfaceId, the loop
continues with the remaining rules (the rejected rule is skipped, its
set_id attempt recorded), and if the whole rule lookup fails the engine
falls through to the default path: with default behavior enabled, a free
cursor id below the max, the event succeeds via default allocation. -/
theorem c1_host_reject_continues_and_falls_through :
    (∀ (host : Host) (ls : Nat) (tapp ttitle : Option String) (e : DbElem)
        (rest : List DbElem),
      check_config_parameter e.cfg_app_id tapp = true →
      check_config_parameter e.cfg_title ttitle = true →
      host.set_id_ok ls e.surface_id = false →
      get_id_from_config host ls tapp ttitle (e :: rest) =
        ⟨e :: (get_id_from_config host ls tapp ttitle rest).app_list,
         (get_id_from_config host ls tapp ttitle rest).ok,
         Event.set_id ls e.surface_id false ::
           (get_id_from_config host ls tapp ttitle rest).events⟩) ∧
    (∀ (host : Host) (ida : IviIdAgent) (ls : Nat) (tapp ttitle : Option String),
      (get_id_from_config host ls tapp ttitle ida.app_list).ok = false →
      ida.default_behavior_set ≠ 0 →
      ida.default_surface_id < ida.default_surface_id_max →
      host.surface_from_id ida.default_surface_id = none →
      (get_id_core host ida ls tapp ttitle).ok = true ∧
      (get_id_core host ida ls tapp ttitle).ida.default_surface_id =
        ida.default_surface_id + 1) := by
  constructor
  · intro host ls tapp ttitle e rest h1 h2 h3
    simp [get_id_from_config, h1, h2, h3]
  · intro host ida ls tapp ttitle h1 h2 h3 h4
    simp [get_id_core, h1, h2, h3, h4]

/-- C1 amended witness: both parts of the amended theorem instantiated on
the concrete C1 scenario (rule "nav" with id 7 rejected by the host). -/
theorem c1_host_reject_witness :
    (get_id_from_config host_reject7 2 (some "nav") none [rule_nav] =
      ⟨[rule_nav], false, [Event.set_id 2 7 false]⟩) ∧
    (get_id_core host_reject7 ⟨1, 100, 103, [rule_nav]⟩ 2 (some "nav") none).ok = true ∧
    (get_id_core host_reject7 ⟨1, 100, 103, [rule_nav]⟩ 2 (some "nav") none).ida.default_surface_id
      = 101 :=
  ⟨c1_host_reject_continues_and_falls_through.1 host_reject7 2 (some "nav") none
      rule_nav [] (by decide) (by decide) (by decide),
   c1_host_reject_continues_and_falls_through.2 host_reject7
      ⟨1, 100, 103, [rule_nav]⟩ 2 (some "nav") none
      (by decide) (by decide) (by decide) (by decide)⟩

/-- C5: when the default-range cursor id is already held by a different live
surface, the event fails, no default set_id or redis_reg call is made, and
the cursor is not advanced. -/
theorem default_alloc_refused_on_occupied :
    ∀ (host : Host) (ida : IviIdAgent) (ls : Nat) (tapp ttitle : Option String)
      (s : Nat),
      (get_id_from_config host ls tapp ttitle ida.app_list).ok = false →
      ida.default_behavior_set ≠ 0 →
      ida.default_surface_id < ida.default_surface_id_max →
      host.surface_from_id ida.default_surface_id = some s →
      s ≠ ls →
      (get_id_core host ida ls tapp ttitle).ok = false ∧
      (get_id_core host ida ls tapp ttitle).ida.default_surface_id =
        ida.default_surface_id ∧
      (get_id_core host ida ls tapp ttitle).events =
        (get_id_from_config host ls tapp ttitle ida.app_list).events := by
  intro host ida ls tapp ttitle s h1 h2 h3 h4 h5
  simp [get_id_core, h1, h2, h3, h4, h5]

/-- Host for the C5 witness: id 100 is held by surface 5, everything else free. -/
def host_occupied100 : Host :=
  ⟨fun _ _ => true, fun i => if i = 100 then some 5 else none⟩

/-- C5 witness: the occupied-cursor refusal instantiated on a concrete state
(no rules, cursor 100 held by surface 5, requesting surface 2). -/
theorem default_alloc_refused_on_occupied_witness :
    (get_id_core host_occupied100 ⟨1, 100, 103, []⟩ 2 none none).ok = false ∧
    (get_id_core host_occupied100 ⟨1, 100, 103, []⟩ 2 none none).ida.default_surface_id = 100 ∧
    (get_id_core host_occupied100 ⟨1, 100, 103, []⟩ 2 none none).events =
      (get_id_from_config host_occupied100 2 none none []).events :=
  default_alloc_refused_on_occupied host_occupied100 ⟨1, 100, 103, []⟩ 2 none none 5
    (by decide) (by decide) (by decide) (by decide) (by decide)

/-- C10: once the occupancy pre-check passes in the default path, the event
succeeds, redis_reg is attempted and the cursor advances, for every host —
the recorded surface_set_id result is whatever the host returns, and neither
the success flag nor the cursor depends on it. -/
theorem default_alloc_ignores_set_id_result :
    ∀ (host : Host) (ida : IviIdAgent) (ls : Nat) (tapp ttitle : Option String),
      (get_id_from_config host ls tapp ttitle ida.app_list).ok = false →
      ida.default_behavior_set ≠ 0 →
      ida.default_surface_id < ida.default_surface_id_max →
      (host.surface_from_id ida.default_surface_id = none ∨
        host.surface_from_id ida.default_surface_id = some ls) →
      (get_id_core host ida ls tapp ttitle).ok = true ∧
      (get_id_core host ida ls tapp ttitle).ida.default_surface_id =
        ida.default_surface_id + 1 ∧
      (get_id_core host ida ls tapp ttitle).events =
        (get_id_from_config host ls tapp ttitle ida.app_list).events ++
          [Event.set_id ls ida.default_surface_id
            (host.set_id_ok ls ida.default_surface_id),
           Event.reg tapp ida.default_surface_id] := by
  intro host ida ls tapp ttitle h1 h2 h3 h4
  rcases h4 with h4 | h4 <;> simp [get_id_core, h1, h2, h3, h4]

/-- Host for the C10 witness: surface_set_id always FAILS, all ids free. -/
def host_set_id_fails : Host := ⟨fun _ _ => false, fun _ => none⟩

/-- C10 witness: with a host whose set-id call reports failure, the default
path still reports success, still registers, and still advances the cursor. -/
theorem default_alloc_ignores_set_id_result_witness :
    (get_id_core host_set_id_fails ⟨1, 100, 103, []⟩ 2 none none).ok = true ∧
    (get_id_core host_set_id_fails ⟨1, 100, 103, []⟩ 2 none none).ida.default_surface_id = 101 ∧
    (get_id_core host_set_id_fails ⟨1, 100, 103, []⟩ 2 none none).events =
      (get_id_from_config host_set_id_fails 2 none none []).events ++
        [Event.set_id 2 100 false, Event.reg none 100] :=
  default_alloc_ignores_set_id_result host_set_id_fails ⟨1, 100, 103, []⟩ 2 none none
    (by decide) (by decide) (by decide) (Or.inl (by decide))

/-- The Bool matcher of the rule loop in get_id_from_config: both the
configured app id and the configured title must pass check_config_parameter. -/
def rule_matcher (tapp ttitle : Option String) (e : DbElem) : Bool :=
  check_config_parameter e.cfg_app_id tapp && check_config_parameter e.cfg_title ttitle

/-- The pure rule-matching lookup: the first element of the stored rule list
passing both check_config_parameter tests (the selection the loop in
get_id_from_config performs). -/
def find_match (tapp ttitle : Option String) (l : List DbElem) : Option DbElem :=
  l.find? (rule_matcher tapp ttitle)

/-- With a host that accepts every set_id call, get_id_from_config reports
success exactly when find_match finds a rule: the loop's selection is the
find? of rule_matcher. -/
theorem get_id_from_config_ok_iff_find_match (host : Host)
    (hset : ∀ a b, host.set_id_ok a b = true) (ls : Nat)
    (tapp ttitle : Option String) (l : List DbElem) :
    (get_id_from_config host ls tapp ttitle l).ok =
      (find_match tapp ttitle l).isSome := by
  induction l with
  | nil => simp [get_id_from_config, find_match]
  | cons e rest ih =>
    by_cases h : rule_matcher tapp ttitle e = true
    · have h' := h
      simp only [rule_matcher, Bool.and_eq_true] at h'
      simp [get_id_from_config, find_match, List.find?, h, h'.1, h'.2, hset]
    · have h' : (check_config_parameter e.cfg_app_id tapp &&
          check_config_parameter e.cfg_title ttitle) = false := by
        simpa [rule_matcher] using h
      simp only [find_match, List.find?] at ih ⊢
      simp [get_id_from_config, h', ih, rule_matcher, h]

/-- One parsed [desktop-app] section in declaration order: the surface-id
value (after weston_config_section_get_uint with default INVALID_ID) and
the optional app-id and app-title strings. -/
structure RuleRecord where
  surface_id : Nat
  app_id : Option String
  title : Option String
deriving DecidableEq, Repr

/-- The db_elem freshly allocated for a parsed section (calloc zeroes the
back pointer). -/
def RuleRecord.toDb (r : RuleRecord) : DbElem :=
  ⟨r.surface_id, r.app_id, r.title, none⟩

/-- check_config: fails when the candidate surface_id lies in the CLOSED
interval [default_surface_id, default_surface_id_max], or when any other
element of the list shares its surface_id (true = IVI_SUCCEEDED). -/
def check_config (st mx : Nat) (curr : DbElem) (others : List DbElem) : Bool :=
  if st ≤ curr.surface_id ∧ curr.surface_id ≤ mx then false
  else others.all (fun e => e.surface_id != curr.surface_id)

/-- The [desktop-app] loop of read_config: each section is turned into a
db_elem and inserted at the HEAD of the list (wl_list_insert on the list
head), then its surface-id presence, pattern presence and check_config are
verified; any failure aborts the whole load. -/
def load_rules (st mx : Nat) : List RuleRecord → List DbElem → Option (List DbElem)
  | [], acc => some acc
  | r :: rs, acc =>
    let db := RuleRecord.toDb r
    if r.surface_id = INVALID_ID then none
    else if r.app_id = none ∧ r.title = none then none
    else if check_config st mx db acc = false then none
    else load_rules st mx rs (db :: acc)

/-- read_config: derive the default-behavior flag and range from the
optional [desktop-app-default] section (a missing bound disables default
behavior; an absent section leaves the calloc-zeroed bounds), run the rule
loop, and finally fail when default behavior is off and no rule was read. -/
def read_config (dsec : Option (Nat × Nat)) (records : List RuleRecord) :
    Option IviIdAgent :=
  let bset : Nat := match dsec with
    | none => 0
    | some (s, m) => if s = INVALID_ID ∨ m = INVALID_ID then 0 else 1
  let st : Nat := match dsec with
    | none => 0
    | some (s, _) => s
  let mx : Nat := match dsec with
    | none => 0
    | some (_, m) => m
  match load_rules st mx records [] with
  | none => none
  | some l => if bset = 0 ∧ l = [] then none else some ⟨bset, st, mx, l⟩

/-- id_agent_module_init, restricted to its configuration outcome: the
module activates exactly when read_config succeeds. -/
def id_agent_module_init (dsec : Option (Nat × Nat))
    (records : List RuleRecord) : Bool :=
  (read_config dsec records).isSome

/-- The successful rule loop prepends each parsed record, so the final list
is the reversed declaration order on top of the initial accumulator. -/
theorem load_rules_eq_reverse_append (st mx : Nat) :
    ∀ (rs : List RuleRecord) (acc l : List DbElem),
      load_rules st mx rs acc = some l →
      l = (rs.map RuleRecord.toDb).reverse ++ acc := by
  intro rs
  induction rs with
  | nil => intro acc l h; simpa [load_rules] using h.symm
  | cons r rs ih =>
    intro acc l h
    simp only [load_rules] at h
    split at h
    · exact absurd h (by simp)
    · split at h
      · exact absurd h (by simp)
      · split at h
        · exact absurd h (by simp)
        · have := ih (RuleRecord.toDb r :: acc) l h
          simpa [List.append_assoc] using this

/-- check_config succeeds exactly when the candidate id avoids the closed
interval [st, mx] and no listed element shares its id. -/
theorem check_config_eq_true_iff (st mx : Nat) (curr : DbElem)
    (others : List DbElem) :
    check_config st mx curr others = true ↔
      (¬(st ≤ curr.surface_id ∧ curr.surface_id ≤ mx) ∧
        ∀ e ∈ others, e.surface_id ≠ curr.surface_id) := by
  by_cases h : st ≤ curr.surface_id ∧ curr.surface_id ≤ mx
  · simp [check_config, h]
  · simp [check_config, h, List.all_eq_true]


/-- The rule loop accepts a record list exactly when every record has a set
surface-id and at least one pattern, every id avoids the closed default
interval, the ids are pairwise distinct, and no id collides with the
initial accumulator. -/
theorem load_rules_isSome_iff (st mx : Nat) :
    ∀ (rs : List RuleRecord) (acc : List DbElem),
      (load_rules st mx rs acc).isSome = true ↔
        ((∀ r ∈ rs, r.surface_id ≠ INVALID_ID ∧
            (r.app_id ≠ none ∨ r.title ≠ none) ∧
            ¬(st ≤ r.surface_id ∧ r.surface_id ≤ mx)) ∧
          (rs.map RuleRecord.surface_id).Nodup ∧
          (∀ r ∈ rs, ∀ e ∈ acc, r.surface_id ≠ e.surface_id)) := by
  intro rs
  induction rs with
  | nil => intro acc; simp [load_rules]
  | cons r rs ih =>
    intro acc
    by_cases h1 : r.surface_id = INVALID_ID
    · have hL : load_rules st mx (r :: rs) acc = none := by
        simp [load_rules, h1]
      rw [hL]
      simp only [Option.isSome_none, Bool.false_eq_true, false_iff]
      rintro ⟨hall, -, -⟩
      exact (hall r (by simp)).1 h1
    · by_cases h2 : r.app_id = none ∧ r.title = none
      · have hL : load_rules st mx (r :: rs) acc = none := by
          simp [load_rules, h1, h2]
        rw [hL]
        simp only [Option.isSome_none, Bool.false_eq_true, false_iff]
        rintro ⟨hall, -, -⟩
        rcases (hall r (by simp)).2.1 with h | h
        · exact h h2.1
        · exact h h2.2
      · by_cases h3 : check_config st mx (RuleRecord.toDb r) acc = true
        · have hL : load_rules st mx (r :: rs) acc =
              load_rules st mx rs (RuleRecord.toDb r :: acc) := by
            simp [load_rules, h1, h2, h3]
          rw [hL, ih]
          have hcc := (check_config_eq_true_iff st mx (RuleRecord.toDb r) acc).1 h3
          constructor
          · rintro ⟨hall, hnodup, hcross⟩
            refine ⟨?_, ?_, ?_⟩
            · intro r' hr'
              rcases List.mem_cons.1 hr' with h | h
              · subst h; exact ⟨h1, by tauto, hcc.1⟩
              · exact hall r' h
            · rw [List.map_cons, List.nodup_cons]
              refine ⟨?_, hnodup⟩
              intro hmem
              rcases List.mem_map.1 hmem with ⟨r', hr', hid⟩
              exact hcross r' hr' (RuleRecord.toDb r) (by simp) hid
            · intro r' hr' e he
              rcases List.mem_cons.1 hr' with h | h
              · subst h
                exact fun hEq => hcc.2 e he hEq.symm
              · exact hcross r' h e (by simp [he])
          · rintro ⟨hall, hnodup, hcross⟩
            rw [List.map_cons, List.nodup_cons] at hnodup
            refine ⟨?_, hnodup.2, ?_⟩
            · intro r' hr'; exact hall r' (by simp [hr'])
            · intro r' hr' e he
              rcases List.mem_cons.1 he with h | h
              · subst h
                intro hEq
                exact hnodup.1 (List.mem_map.2 ⟨r', hr', hEq⟩)
              · exact hcross r' (by simp [hr']) e h
        · have h3f : check_config st mx (RuleRecord.toDb r) acc = false := by
            revert h3; cases check_config st mx (RuleRecord.toDb r) acc <;> simp
          have hL : load_rules st mx (r :: rs) acc = none := by
            simp [load_rules, h1, h2, h3f]
          rw [hL]
          simp only [Option.isSome_none, Bool.false_eq_true, false_iff]
          rintro ⟨hall, -, hcross⟩
          apply h3
          apply (check_config_eq_true_iff st mx (RuleRecord.toDb r) acc).2
          exact ⟨(hall r (by simp)).2.2,
            fun e he => (hcross r (by simp) e he).symm⟩

/-- C3 amended: for a present [desktop-app-default] section with both
bounds set and records whose surface-ids are set, configuration load
succeeds exactly when the ids are pairwise distinct, every id avoids the
CLOSED interval [defaultStart, defaultMax], and every record has at least
one pattern; in particular an id equal to defaultMax is rejected. -/
theorem read_config_success_iff_closed_interval :
    ∀ (st mx : Nat) (records : List RuleRecord),
      st ≠ INVALID_ID → mx ≠ INVALID_ID →
      (∀ r ∈ records, r.surface_id ≠ INVALID_ID) →
      ((read_config (some (st, mx)) records).isSome = true ↔
        ((records.map RuleRecord.surface_id).Nodup ∧
          ∀ r ∈ records, ¬(st ≤ r.surface_id ∧ r.surface_id ≤ mx) ∧
            (r.app_id ≠ none ∨ r.title ≠ none))) := by
  intro st mx records hst hmx hid
  have hmain : (read_config (some (st, mx)) records).isSome =
      (load_rules st mx records []).isSome := by
    cases h : load_rules st mx records [] with
    | none => simp [read_config, h]
    | some l => simp [read_config, h, hst, hmx]
  rw [hmain, load_rules_isSome_iff]
  constructor
  · rintro ⟨hall, hnodup, -⟩
    exact ⟨hnodup, fun r hr => ⟨(hall r hr).2.2, (hall r hr).2.1⟩⟩
  · rintro ⟨hnodup, hall⟩
    exact ⟨fun r hr => ⟨hid r hr, (hall r hr).2, (hall r hr).1⟩, hnodup,
      fun r _ e he => absurd he (List.not_mem_nil e)⟩

/-- C3 counterexample: with default range start 100, max 103, a single rule
with surfaceId 103 (the exclusive upper bound per the claim, with a set
pattern and outside the half-open range [100, 103)) is REJECTED by
configuration load: read_config fails, while the claim says it is
accepted. -/
theorem read_config_rejects_default_max_counterexample :
    read_config (some (100, 103)) [⟨103, some "a", none⟩] = none ∧
    ¬(100 ≤ 103 ∧ 103 < 103) := by
  decide

/-- C3 amended witness: the load-success equivalence instantiated on a
one-rule configuration whose id 104 lies just above the closed interval. -/
theorem read_config_success_iff_closed_interval_witness :
    (read_config (some (100, 103)) [⟨104, some "a", none⟩]).isSome = true ↔
      (([⟨104, some "a", none⟩] : List RuleRecord).map RuleRecord.surface_id).Nodup ∧
        ∀ r ∈ ([⟨104, some "a", none⟩] : List RuleRecord),
          ¬(100 ≤ r.surface_id ∧ r.surface_id ≤ 103) ∧
            (r.app_id ≠ none ∨ r.title ≠ none) :=
  read_config_success_iff_closed_interval 100 103 [⟨104, some "a", none⟩]
    (by decide) (by decide) (by decide)

/-- check_config_parameter holds exactly when every set configured value is
matched by a present, equal surface value. -/
theorem check_config_parameter_eq_true_iff (cfg v : Option String) :
    check_config_parameter cfg v = true ↔ ∀ c, cfg = some c → v = some c := by
  cases cfg with
  | none => simp [check_config_parameter]
  | some c =>
    cases v with
    | none => simp [check_config_parameter]
    | some s =>
      simp only [check_config_parameter, beq_iff_eq]
      constructor
      · rintro rfl c' hc'
        exact hc'
      · intro H
        exact (Option.some_inj.1 (H c rfl)).symm

/-- C2 amended: for every successfully loaded configuration, the rule
lookup scans the stored list, which — because each parsed [desktop-app]
section is inserted at the list head — is the REVERSE of declaration
order, so the first stored match is the LAST declared matching rule; a set
pattern matches only a present, exactly equal identity field, an unset
pattern matches anything, and with an always-accepting host the lookup
outcome is exactly the get_id_from_config outcome. -/
theorem find_match_reverse_declaration_order :
    ∀ (dsec : Option (Nat × Nat)) (records : List RuleRecord) (ida : IviIdAgent),
      read_config dsec records = some ida →
      ∀ tapp ttitle : Option String,
        (find_match tapp ttitle ida.app_list =
          List.find? (rule_matcher tapp ttitle)
            ((records.map RuleRecord.toDb).reverse)) ∧
        (∀ e : DbElem, rule_matcher tapp ttitle e = true ↔
          ((∀ c, e.cfg_app_id = some c → tapp = some c) ∧
           (∀ c, e.cfg_title = some c → ttitle = some c))) ∧
        (∀ host : Host, (∀ a b, host.set_id_ok a b = true) →
          ∀ ls, (get_id_from_config host ls tapp ttitle ida.app_list).ok =
            (find_match tapp ttitle ida.app_list).isSome) := by
  intro dsec records ida h tapp ttitle
  have happ : ida.app_list = (records.map RuleRecord.toDb).reverse := by
    have hbody : ∀ (st mx bset : Nat),
        (match load_rules st mx records [] with
          | none => none
          | some l => if bset = 0 ∧ l = [] then none
              else some (⟨bset, st, mx, l⟩ : IviIdAgent)) = some ida →
        ida.app_list = (records.map RuleRecord.toDb).reverse := by
      intro st mx bset hm
      cases hl : load_rules st mx records [] with
      | none => rw [hl] at hm; exact absurd hm (by simp)
      | some l =>
        rw [hl] at hm
        dsimp only at hm
        have hlist := load_rules_eq_reverse_append st mx records [] l hl
        by_cases hc : bset = 0 ∧ l = []
        · rw [if_pos hc] at hm; exact absurd hm (by simp)
        · rw [if_neg hc] at hm
          have hida : ida = ⟨bset, st, mx, l⟩ := (Option.some_inj.1 hm).symm
          rw [hida]
          simpa using hlist
    cases dsec with
    | none => exact hbody 0 0 0 h
    | some p => exact hbody p.1 p.2 _ h
  refine ⟨by rw [happ]; rfl, ?_, ?_⟩
  · intro e
    simp only [rule_matcher, Bool.and_eq_true, check_config_parameter_eq_true_iff]
  · intro host hset ls
    exact get_id_from_config_ok_iff_find_match host hset ls tapp ttitle ida.app_list

/-- C2 counterexample: two rules declared in order (id 1 then id 2), both
with applicationPattern "a"; after loading, the lookup for an identity with
application id "a" returns the rule with surfaceId 2 — the LAST declared
matching rule, not the first as the claim states. -/
theorem find_match_not_first_declared_counterexample :
    read_config none [⟨1, some "a", none⟩, ⟨2, some "a", none⟩] =
      some ⟨0, 0, 0, [⟨2, some "a", none, none⟩, ⟨1, some "a", none, none⟩]⟩ ∧
    (find_match (some "a") none
        [⟨2, some "a", none, none⟩, ⟨1, some "a", none, none⟩]).map
      DbElem.surface_id = some 2 := by
  constructor
  · decide
  · decide

/-- C2 amended witness: the reverse-order lookup equivalence instantiated
on the two-rule configuration of the counterexample. -/
theorem find_match_reverse_declaration_order_witness :
    (find_match (some "a") none
        (⟨0, 0, 0, [⟨2, some "a", none, none⟩, ⟨1, some "a", none, none⟩]⟩ :
          IviIdAgent).app_list =
      List.find? (rule_matcher (some "a") none)
        ((([⟨1, some "a", none⟩, ⟨2, some "a", none⟩] : List RuleRecord).map
          RuleRecord.toDb).reverse)) ∧
    (∀ e : DbElem, rule_matcher (some "a") none e = true ↔
      ((∀ c, e.cfg_app_id = some c → (some "a" : Option String) = some c) ∧
       (∀ c, e.cfg_title = some c → (none : Option String) = some c))) ∧
    (∀ host : Host, (∀ a b, host.set_id_ok a b = true) →
      ∀ ls, (get_id_from_config host ls (some "a") none
          (⟨0, 0, 0, [⟨2, some "a", none, none⟩, ⟨1, some "a", none, none⟩]⟩ :
            IviIdAgent).app_list).ok =
        (find_match (some "a") none
          (⟨0, 0, 0, [⟨2, some "a", none, none⟩, ⟨1, some "a", none, none⟩]⟩ :
            IviIdAgent).app_list).isSome) :=
  find_match_reverse_declaration_order none
    [⟨1, some "a", none⟩, ⟨2, some "a", none⟩]
    ⟨0, 0, 0, [⟨2, some "a", none, none⟩, ⟨1, some "a", none, none⟩]⟩
    (by decide) (some "a") none

/-- C9: when the [desktop-app-default] section is absent (or present with a
missing bound, which disables default behavior) and no [desktop-app] rule
is configured, read_config fails and module initialization reports failure. -/
theorem module_init_fails_without_default_and_rules :
    ∀ dsec : Option (Nat × Nat),
      (dsec = none ∨
        ∃ s m, dsec = some (s, m) ∧ (s = INVALID_ID ∨ m = INVALID_ID)) →
      id_agent_module_init dsec [] = false := by
  intro dsec h
  rcases h with h | ⟨s, m, h, hsm⟩
  · subst h; decide
  · subst h
    have hbset : (if s = INVALID_ID ∨ m = INVALID_ID then (0 : Nat) else 1) = 0 :=
      if_pos hsm
    simp [id_agent_module_init, read_config, load_rules, hbset]

/-- C9 witness: a fully absent configuration makes module init fail. -/
theorem module_init_fails_without_default_and_rules_witness :
    id_agent_module_init none [] = false :=
  module_init_fails_without_default_and_rules none (Or.inl rfl)

/-- The external key-value registry: an association list of string keys and
string values, most recent write first. -/
abbrev Registry : Type := List (String × String)

/-- GET: the value of the first pair with the given key. -/
def rlookup (reg : Registry) (k : String) : Option String :=
  (List.find? (fun p => p.1 == k) reg).map (fun p => p.2)

/-- DEL: remove every pair with the given key. -/
def rdel (reg : Registry) (k : String) : Registry :=
  List.filter (fun p => p.1 != k) reg

/-- SET: overwrite the key with the new value. -/
def rset (reg : Registry) (k v : String) : Registry :=
  (k, v) :: rdel reg k

/-- The reverse-mapping key SURID-%d used by redis_reg and redis_unreg. -/
def SURID (sid : Int) : String := "SURID-" ++ toString sid

/-- redis_reg: no-op without a valid context, with a NULL app id, or with a
non-positive surface id; otherwise SET the forward mapping then SET the
reverse mapping. -/
def redis_reg (connected : Bool) (app_id : Option String) (sid : Int)
    (reg : Registry) : Registry :=
  if ¬ connected then reg
  else
    match app_id with
    | none => reg
    | some a =>
      if sid ≤ 0 then reg
      else rset (rset reg a (toString sid)) (SURID sid) a

/-- redis_unreg: no-op without a valid context or with a non-positive
surface id; otherwise GET the reverse mapping, DEL the reverse key
unconditionally, and DEL the forward key only when the GET found a value. -/
def redis_unreg (connected : Bool) (sid : Int) (reg : Registry) : Registry :=
  if ¬ connected then reg
  else if sid ≤ 0 then reg
  else
    let app := rlookup reg (SURID sid)
    let reg1 := rdel reg (SURID sid)
    match app with
    | some a => rdel reg1 a
    | none => reg1

/-- rlookup misses exactly when no pair carries the key. -/
theorem rlookup_eq_none_iff (reg : Registry) (k : String) :
    rlookup reg k = none ↔ ∀ p ∈ reg, p.1 ≠ k := by
  simp [rlookup, List.find?_eq_none]

/-- A deleted key is no longer found. -/
theorem rlookup_rdel_self (reg : Registry) (k : String) :
    rlookup (rdel reg k) k = none := by
  rw [rlookup_eq_none_iff]
  intro p hp
  have h := (List.mem_filter.1 hp).2
  simpa using h

/-- Deleting one key cannot make another key appear. -/
theorem rlookup_rdel_of_none (reg : Registry) (k k2 : String)
    (h : rlookup reg k = none) : rlookup (rdel reg k2) k = none := by
  rw [rlookup_eq_none_iff] at h ⊢
  intro p hp
  exact h p (List.mem_filter.1 hp).1

/-- Deleting an absent key changes nothing. -/
theorem rdel_of_rlookup_none (reg : Registry) (k : String)
    (h : rlookup reg k = none) : rdel reg k = reg := by
  rw [rlookup_eq_none_iff] at h
  apply List.filter_eq_self.2
  intro p hp
  simpa using h p hp

/-- A fresh SET is found. -/
theorem rlookup_rset_self (reg : Registry) (k v : String) :
    rlookup (rset reg k v) k = some v := by
  simp [rlookup, rset, List.find?]

/-- Deleting a different key does not change a lookup. -/
theorem rlookup_rdel_of_ne (reg : Registry) (k k2 : String) (h : k ≠ k2) :
    rlookup (rdel reg k2) k = rlookup reg k := by
  induction reg with
  | nil => rfl
  | cons p t ih =>
    by_cases h1 : p.1 = k2
    · have h2 : (p.1 == k) = false := by
        rw [beq_eq_false_iff_ne, h1]
        exact fun hh => h hh.symm
      have hb1 : (p.1 != k2) = false := by
        simp [bne, h1]
      have hd : rdel (p :: t) k2 = rdel t k2 := by
        simp only [rdel, List.filter, hb1]
      rw [hd, ih]
      simp only [rlookup, List.find?, h2]
    · have hb1 : (p.1 != k2) = true := by
        simp [bne, h1]
      have hd : rdel (p :: t) k2 = p :: rdel t k2 := by
        simp only [rdel, List.filter, hb1]
      rw [hd]
      cases h2 : (p.1 == k) with
      | true => simp only [rlookup, List.find?, h2]
      | false =>
        simp only [rlookup, List.find?, h2]
        exact ih

/-- Setting a different key does not change a lookup. -/
theorem rlookup_rset_of_ne (reg : Registry) (k k2 v : String) (h : k ≠ k2) :
    rlookup (rset reg k2 v) k = rlookup reg k := by
  have hk : ((k2, v).1 == k) = false :=
    beq_eq_false_iff_ne.2 (fun hh => h hh.symm)
  have hstep : rlookup (rset reg k2 v) k = rlookup (rdel reg k2) k := by
    simp only [rset, rlookup, List.find?, hk]
  rw [hstep]
  exact rlookup_rdel_of_ne reg k k2 h

/-- C6: redis_unreg is a no-op without a valid context or for a
non-positive surface id; otherwise it always deletes the reverse SURID key
and deletes the forward key only when the reverse lookup found one; it is
idempotent and never fails, even on an empty registry. -/
theorem redis_unreg_spec :
    (∀ (sid : Int) (reg : Registry), redis_unreg false sid reg = reg) ∧
    (∀ (sid : Int) (reg : Registry), sid ≤ 0 → redis_unreg true sid reg = reg) ∧
    (∀ (sid : Int) (reg : Registry), 0 < sid →
      rlookup (redis_unreg true sid reg) (SURID sid) = none) ∧
    (∀ (sid : Int) (reg : Registry) (a : String), 0 < sid →
      rlookup reg (SURID sid) = some a →
      redis_unreg true sid reg = rdel (rdel reg (SURID sid)) a) ∧
    (∀ (sid : Int) (reg : Registry), 0 < sid →
      rlookup reg (SURID sid) = none →
      redis_unreg true sid reg = rdel reg (SURID sid)) ∧
    (∀ (c : Bool) (sid : Int) (reg : Registry),
      redis_unreg c sid (redis_unreg c sid reg) = redis_unreg c sid reg) := by
  have hnone : ∀ (sid : Int) (reg : Registry), ¬ sid ≤ 0 →
      rlookup (redis_unreg true sid reg) (SURID sid) = none := by
    intro sid reg hs
    cases hl : rlookup reg (SURID sid) with
    | none =>
      simp [redis_unreg, hs, hl]
      exact rlookup_rdel_self reg (SURID sid)
    | some a =>
      simp [redis_unreg, hs, hl]
      exact rlookup_rdel_of_none _ _ _ (rlookup_rdel_self reg (SURID sid))
  refine ⟨?_, ?_, ?_, ?_, ?_, ?_⟩
  · intro sid reg; simp [redis_unreg]
  · intro sid reg h; simp [redis_unreg, h]
  · intro sid reg h; exact hnone sid reg (not_le.2 h)
  · intro sid reg a h hl; simp [redis_unreg, not_le.2 h, hl]
  · intro sid reg h hl; simp [redis_unreg, not_le.2 h, hl]
  · intro c sid reg
    cases c with
    | false => simp [redis_unreg]
    | true =>
      by_cases hs : sid ≤ 0
      · simp [redis_unreg, hs]
      · have hn := hnone sid reg hs
        generalize hR : redis_unreg true sid reg = R at hn ⊢
        have hstep : redis_unreg true sid R = rdel R (SURID sid) := by
          simp [redis_unreg, hs, hn]
        rw [hstep]
        exact rdel_of_rlookup_none R _ hn

/-- C6 witness: the unregister contract instantiated on a concrete registry
holding the pair for surface id 5, and on an empty registry (no record of
the id), exercising the guarded conjuncts of redis_unreg_spec. -/
theorem redis_unreg_spec_witness :
    redis_unreg true (-1) [("app1", "5")] = [("app1", "5")] ∧
    redis_unreg true 5 [(SURID 5, "app1"), ("app1", "5")] =
      rdel (rdel [(SURID 5, "app1"), ("app1", "5")] (SURID 5)) "app1" ∧
    rlookup (redis_unreg true 5 [(SURID 5, "app1"), ("app1", "5")]) (SURID 5) =
      none ∧
    redis_unreg true 5 ([] : Registry) = rdel ([] : Registry) (SURID 5) ∧
    redis_unreg true 5 (redis_unreg true 5 [(SURID 5, "app1"), ("app1", "5")]) =
      redis_unreg true 5 [(SURID 5, "app1"), ("app1", "5")] :=
  ⟨redis_unreg_spec.2.1 (-1) [("app1", "5")] (by decide),
   redis_unreg_spec.2.2.2.1 5 [(SURID 5, "app1"), ("app1", "5")] "app1"
     (by decide) (by decide),
   redis_unreg_spec.2.2.1 5 [(SURID 5, "app1"), ("app1", "5")] (by decide),
   redis_unreg_spec.2.2.2.2.1 5 ([] : Registry) (by decide) (by decide),
   redis_unreg_spec.2.2.2.2.2 true 5 [(SURID 5, "app1"), ("app1", "5")]⟩

/-- C7: redis_reg is a no-op without a valid context, with an absent (NULL)
application id, or with a non-positive surface id; otherwise it performs
exactly the two writes, forward mapping app -> surface id then reverse
mapping SURID key -> app, and both are subsequently readable. -/
theorem redis_reg_spec :
    (∀ (app : Option String) (sid : Int) (reg : Registry),
      redis_reg false app sid reg = reg) ∧
    (∀ (sid : Int) (reg : Registry), redis_reg true none sid reg = reg) ∧
    (∀ (a : String) (sid : Int) (reg : Registry), sid ≤ 0 →
      redis_reg true (some a) sid reg = reg) ∧
    (∀ (a : String) (sid : Int) (reg : Registry), 0 < sid →
      redis_reg true (some a) sid reg =
        rset (rset reg a (toString sid)) (SURID sid) a ∧
      rlookup (redis_reg true (some a) sid reg) (SURID sid) = some a ∧
      (a ≠ SURID sid →
        rlookup (redis_reg true (some a) sid reg) a = some (toString sid))) := by
  refine ⟨?_, ?_, ?_, ?_⟩
  · intro app sid reg; simp [redis_reg]
  · intro sid reg; simp [redis_reg]
  · intro a sid reg h; simp [redis_reg, h]
  · intro a sid reg h
    have hdef : redis_reg true (some a) sid reg =
        rset (rset reg a (toString sid)) (SURID sid) a := by
      simp [redis_reg, not_le.2 h]
    refine ⟨hdef, ?_, ?_⟩
    · rw [hdef]
      exact rlookup_rset_self _ _ _
    · intro hne
      rw [hdef, rlookup_rset_of_ne _ _ _ _ hne]
      exact rlookup_rset_self _ _ _

/-- C7 witness: registration of ("app1", 5) on an empty registry performs
the two writes and both lookups round-trip; the guards are exercised with
surface id 0. -/
theorem redis_reg_spec_witness :
    redis_reg true (some "app1") 0 ([] : Registry) = ([] : Registry) ∧
    redis_reg true (some "app1") 5 ([] : Registry) =
      rset (rset ([] : Registry) "app1" (toString (5 : Int))) (SURID 5) "app1" ∧
    rlookup (redis_reg true (some "app1") 5 ([] : Registry)) (SURID 5) =
      some "app1" ∧
    rlookup (redis_reg true (some "app1") 5 ([] : Registry)) "app1" =
      some (toString (5 : Int)) :=
  ⟨redis_reg_spec.2.2.1 "app1" 0 ([] : Registry) (by decide),
   (redis_reg_spec.2.2.2 "app1" 5 ([] : Registry) (by decide)).1,
   (redis_reg_spec.2.2.2 "app1" 5 ([] : Registry) (by decide)).2.1,
   (redis_reg_spec.2.2.2 "app1" 5 ([] : Registry) (by decide)).2.2 (by decide)⟩

/-- The retry loop of redis_connect.  The C loop runs while the context is
invalid; each iteration calls redisConnect once (the n-th call's outcome is
conn n), then tests retry-- == 0 and breaks when retry has reached zero,
sleeping one second otherwise.  Returns the final validity of the context
and the number of redisConnect calls made. -/
def connect_go (conn : Nat → Bool) : Nat → Nat → Bool × Nat
  | 0, n => (conn n, n + 1)
  | retry + 1, n =>
    if conn n then (true, n + 1) else connect_go conn retry (n + 1)

/-- redis_connect: with no configured server the connection attempt is
skipped entirely; otherwise the retry loop starts with retry = 10. -/
def redis_connect (server : Option String) (conn : Nat → Bool) : Bool × Nat :=
  match server with
  | none => (false, 0)
  | some _ => connect_go conn 10 0

/-- The retry loop makes at most retry + 1 connection attempts beyond n. -/
theorem connect_go_count_le (conn : Nat → Bool) :
    ∀ (retry n : Nat), (connect_go conn retry n).2 ≤ n + retry + 1 := by
  intro retry
  induction retry with
  | zero => intro n; simp [connect_go]
  | succ r ih =>
    intro n
    by_cases h : conn n = true
    · have hv : connect_go conn (r + 1) n = (true, n + 1) := by
        simp [connect_go, h]
      rw [hv]
      omega
    · have hf : conn n = false := by revert h; cases conn n <;> simp
      have hv : connect_go conn (r + 1) n = connect_go conn r (n + 1) := by
        simp [connect_go, hf]
      have hle := ih (n + 1)
      rw [hv]
      omega

/-- When every attempt fails the loop performs exactly retry + 1 attempts
and ends disconnected. -/
theorem connect_go_all_fail (conn : Nat → Bool) (hconn : ∀ n, conn n = false) :
    ∀ (retry n : Nat), connect_go conn retry n = (false, n + retry + 1) := by
  intro retry
  induction retry with
  | zero => intro n; simp [connect_go, hconn n]
  | succ r ih =>
    intro n
    have := ih (n + 1)
    simp [connect_go, hconn n, this]
    omega

/-- C8 counterexample: with a configured server and a registry that never
accepts a connection, redis_connect performs 11 connection attempts — one
more than the 10 stated by the claim. -/
theorem redis_connect_eleven_attempts_counterexample :
    (redis_connect (some "127.0.0.1") (fun _ => false)).2 = 11 ∧
    ¬(redis_connect (some "127.0.0.1") (fun _ => false)).2 ≤ 10 := by
  constructor
  · rfl
  · decide

/-- C8 amended: an absent endpoint makes redis_connect a deliberate no-op
with zero attempts; a present endpoint yields at most 11 attempts (the
initial attempt plus up to 10 retries); when every attempt fails the client
gives up after exactly 11 attempts in the disconnected state, and in that
state redis_reg and redis_unreg are no-ops rather than failures. -/
theorem redis_connect_bounded_retry :
    (∀ conn : Nat → Bool, redis_connect none conn = (false, 0)) ∧
    (∀ (s : String) (conn : Nat → Bool),
      (redis_connect (some s) conn).2 ≤ 11) ∧
    (∀ (s : String) (conn : Nat → Bool), (∀ n, conn n = false) →
      redis_connect (some s) conn = (false, 11)) ∧
    (∀ (sid : Int) (reg : Registry) (app : Option String),
      redis_unreg false sid reg = reg ∧ redis_reg false app sid reg = reg) := by
  refine ⟨?_, ?_, ?_, ?_⟩
  · intro conn; rfl
  · intro s conn
    have := connect_go_count_le conn 10 0
    simpa [redis_connect] using this
  · intro s conn hconn
    have := connect_go_all_fail conn hconn 10 0
    simpa [redis_connect] using this
  · intro sid reg app
    exact ⟨by simp [redis_unreg], by simp [redis_reg]⟩

/-- C8 amended witness: the bound, the give-up outcome and the disabled
no-op behavior instantiated on the always-failing connection oracle. -/
theorem redis_connect_bounded_retry_witness :
    redis_connect none (fun _ => false) = (false, 0) ∧
    (redis_connect (some "127.0.0.1") (fun _ => false)).2 ≤ 11 ∧
    redis_connect (some "127.0.0.1") (fun _ => false) = (false, 11) ∧
    redis_unreg false 5 [("app1", "5")] = [("app1", "5")] ∧
    redis_reg false (some "app1") 5 [] = [] :=
  ⟨redis_connect_bounded_retry.1 (fun _ => false),
   redis_connect_bounded_retry.2.1 "127.0.0.1" (fun _ => false),
   redis_connect_bounded_retry.2.2.1 "127.0.0.1" (fun _ => false) (fun _ => rfl),
   (redis_connect_bounded_retry.2.2.2 5 [("app1", "5")] (some "app1")).1,
   (redis_connect_bounded_retry.2.2.2 5 [] (some "app1")).2⟩
